import Mathlib

/-!
Verification of the passthrough mechanism in src/preserve.rs.

The source defines a wrapper type PreserveJsValue together with a global
single-capacity relay slot (the static NEXT_PRESERVE, a Mutex over an
Option). Serialization deposits a clone of the wrapped value into the slot
and emits the integer literal 0; deserialization consumes an i64 scalar,
ignores it, and takes the pending value out of the slot, aborting fatally
(an unwrap panic on None) when the slot is empty.

Embedding choices:
- The host JsValue type and the wrapped field type are type parameters
  J and T; the externally supplied conversion pair From and Into is a pair
  of functions intoJs : T → J and fromJs : J → T, and the Clone
  implementation of T is a function cloneT : T → T.
- The relay slot (the content of the Mutex) is an Option J; the Mutex
  itself only serializes access and is not part of the sequential
  semantics.
- The underlying serializer is a function ser : Int → Except E Ok
  standing for serialize_i64; the deserializer hands the wire scalar to
  the visitor method visit_i64.
- The unwrap panic on an empty slot is an abort of the whole process; it
  is embedded as the value none of an Option result.
-/

namespace SerdeWasmBindgen

/-- the wrapper struct PreserveJsValue of preserve.rs line 20: a single
public field holding the wrapped value. -/
structure PreserveJsValue (T : Type) where
  val : T
  deriving Repr, DecidableEq

/-- the From implementation of preserve.rs lines 21-25: wrapping a value. -/
def PreserveJsValue.fromVal {T : Type} (value : T) : PreserveJsValue T :=
  ⟨value⟩

/-- the Default implementation of preserve.rs lines 26-30: the default of
T (supplied here as the argument d) is wrapped. -/
def PreserveJsValue.mkDefault {T : Type} (d : T) : PreserveJsValue T :=
  ⟨d⟩

/-- the derived Clone of preserve.rs line 19: memberwise, delegating to the
Clone implementation of T (supplied as cloneT). -/
def PreserveJsValue.clone {T : Type} (cloneT : T → T) (p : PreserveJsValue T) :
    PreserveJsValue T :=
  ⟨cloneT p.val⟩

/-- the derived PartialEq of preserve.rs line 19: memberwise, delegating to
the equality of T (supplied as eqT). -/
def PreserveJsValue.eqv {T : Type} (eqT : T → T → Bool)
    (a b : PreserveJsValue T) : Bool :=
  eqT a.val b.val

/-- the Serialize implementation of preserve.rs lines 39-50. The lock on
NEXT_PRESERVE is acquired, Option.replace stores
JsValueKeeper(self.0.clone().into()) in the slot unconditionally
(discarding any previous occupant), and then serializer.serialize_i64(0)
is called and its result returned. The returned pair is the slot content
after the call together with the result of the serializer call. -/
def serialize {T J E Ok : Type} (cloneT : T → T) (intoJs : T → J)
    (ser : Int → Except E Ok) (v : PreserveJsValue T) (slot : Option J) :
    Option J × Except E Ok :=
  (some (intoJs (cloneT v.val)), ser 0)

/-- the method visit_i64 of JsValueVisitor, preserve.rs lines 68-75. The
scalar argument is bound to a name starting with an underscore in the
source and never used. NEXT_PRESERVE.lock().unwrap().take() empties the
slot and hands back its previous content; the following unwrap panics,
aborting the process, when that content is None. The abort is embedded as
the result none; a successful visit yields the reconstructed wrapper and
the slot content after the call. -/
def visit_i64 {T J : Type} (fromJs : J → T) (x : Int) (slot : Option J) :
    Option (PreserveJsValue T × Option J) :=
  match slot with
  | some j => some (⟨fromJs j⟩, none)
  | none => none

/-- the Deserialize implementation of preserve.rs lines 52-79:
deserializer.deserialize_i64(JsValueVisitor(PhantomData)) reads the scalar
at the current wire position and feeds it to visit_i64. -/
def deserialize {T J : Type} (fromJs : J → T) (wire : Int) (slot : Option J) :
    Option (PreserveJsValue T × Option J) :=
  visit_i64 fromJs wire slot

/-- a concrete infallible serializer that records the emitted scalar:
serialize_i64 n succeeds and the wire holds n. -/
def okSer : Int → Except Unit Int :=
  fun n => Except.ok n

/-- an encode immediately followed by a decode of the emitted wire scalar,
starting from an empty relay slot, as in an in-process round trip through
the framework. -/
def roundTrip {T J : Type} (cloneT : T → T) (intoJs : T → J) (fromJs : J → T)
    (v : PreserveJsValue T) : Option (PreserveJsValue T × Option J) :=
  match serialize cloneT intoJs okSer v none with
  | (slot1, Except.ok wire) => deserialize fromJs wire slot1
  | (_, Except.error _) => none

/-- one full serialize call as seen from the caller frame: the method
signature of preserve.rs line 40 takes self by shared reference, so the
caller retains the wrapper unchanged after the call; the first component
records the wrapper still held by the caller. -/
def encodeCall {T J E Ok : Type} (cloneT : T → T) (intoJs : T → J)
    (ser : Int → Except E Ok) (v : PreserveJsValue T) (slot : Option J) :
    PreserveJsValue T × Option J × Except E Ok :=
  (v, serialize cloneT intoJs ser v slot)

/-- C1: round-trip identity. When the conversion pair is a retraction
(fromJs after intoJs is the identity) and Clone on T yields an equivalent
value, decoding the result of encoding PreserveJsValue v, starting from an
empty relay slot, succeeds and yields the wrapper of v again, with the
slot left empty. -/
theorem C1_round_trip_identity {T J : Type} (cloneT : T → T) (intoJs : T → J)
    (fromJs : J → T) (hclone : ∀ t, cloneT t = t)
    (hconv : ∀ t, fromJs (intoJs t) = t) (v : PreserveJsValue T) :
    roundTrip cloneT intoJs fromJs v = some (v, none) := by
  simp [roundTrip, serialize, okSer, deserialize, visit_i64, hclone, hconv]

/-- witness for C1 at T = J = Nat with identity conversions and the value 5. -/
theorem C1_round_trip_identity_witness :
    roundTrip (fun t : Nat => t) (fun t : Nat => t) (fun j : Nat => j) ⟨5⟩ =
      some (⟨5⟩, none) :=
  C1_round_trip_identity (fun t : Nat => t) (fun t : Nat => t)
    (fun j : Nat => j) (fun _ => rfl) (fun _ => rfl) ⟨5⟩

/-- C2: fatal-on-empty. Decoding a PreserveJsValue field while the relay
slot is empty takes the unwrap-panic path, embedded as the result none: it
is a process abort, so no stale, default or fabricated wrapper is ever
returned and the failure cannot be masked or retried. This holds for every
wire scalar n. -/
theorem C2_fatal_on_empty {T J : Type} (fromJs : J → T) (n : Int) :
    deserialize fromJs n (none : Option J) = none :=
  rfl

/-- C3: sentinel stability. With the recording serializer, serializing any
wrapper emits exactly the integer literal 0 as the wire representation of
the field, and the emitted value is identical for any two wrappers and
slot states: it does not depend on the identity or content of the wrapped
value. -/
theorem C3_sentinel_stability {T J : Type} (cloneT : T → T) (intoJs : T → J)
    (v w : PreserveJsValue T) (slot slot2 : Option J) :
    (serialize cloneT intoJs okSer v slot).2 = Except.ok 0 ∧
    (serialize cloneT intoJs okSer v slot).2 =
      (serialize cloneT intoJs okSer w slot2).2 :=
  ⟨rfl, rfl⟩

/-- C4: overwrite hazard. Depositing v1 and then v2 with no intervening
retrieve raises no error on the second deposit, leaves the slot holding
only the value derived from v2 (an expression not mentioning v1, so v1 is
permanently lost), and a subsequent decode yields v2. -/
theorem C4_overwrite_hazard {T J : Type} (cloneT : T → T) (intoJs : T → J)
    (fromJs : J → T) (hclone : ∀ t, cloneT t = t)
    (hconv : ∀ t, fromJs (intoJs t) = t) (v1 v2 : PreserveJsValue T)
    (n : Int) :
    (serialize cloneT intoJs okSer v2
        (serialize cloneT intoJs okSer v1 none).1).2 = Except.ok 0 ∧
    (serialize cloneT intoJs okSer v2
        (serialize cloneT intoJs okSer v1 none).1).1 =
      some (intoJs (cloneT v2.val)) ∧
    deserialize fromJs n
        (serialize cloneT intoJs okSer v2
          (serialize cloneT intoJs okSer v1 none).1).1 =
      some (v2, none) := by
  refine ⟨rfl, rfl, ?_⟩
  simp [serialize, deserialize, visit_i64, hclone, hconv]

/-- witness for C4 at T = J = Nat with identity conversions, depositing 3
then 4 and decoding wire scalar 0. -/
theorem C4_overwrite_hazard_witness :
    (serialize (fun t : Nat => t) (fun t : Nat => t) okSer ⟨4⟩
        (serialize (fun t : Nat => t) (fun t : Nat => t) okSer ⟨3⟩ none).1).2 =
      Except.ok 0 ∧
    (serialize (fun t : Nat => t) (fun t : Nat => t) okSer ⟨4⟩
        (serialize (fun t : Nat => t) (fun t : Nat => t) okSer ⟨3⟩ none).1).1 =
      some 4 ∧
    deserialize (fun j : Nat => j) 0
        (serialize (fun t : Nat => t) (fun t : Nat => t) okSer ⟨4⟩
          (serialize (fun t : Nat => t) (fun t : Nat => t) okSer ⟨3⟩
            none).1).1 =
      some (⟨4⟩, none) :=
  C4_overwrite_hazard (fun t : Nat => t) (fun t : Nat => t) (fun j : Nat => j)
    (fun _ => rfl) (fun _ => rfl) ⟨3⟩ ⟨4⟩ 0

/-- C5: post-decode emptiness. A decode performed while the slot holds a
pending value j succeeds, the slot transitions to empty, and the returned
wrapper is built from exactly the value that was in the slot, which the
take has moved out rather than duplicated: the post-state retains no copy
of j. -/
theorem C5_post_decode_empty {T J : Type} (fromJs : J → T) (n : Int) (j : J) :
    deserialize fromJs n (some j) = some (⟨fromJs j⟩, (none : Option J)) :=
  rfl

/-- C6: encode infallibility. Serializing any wrapper with an infallible
underlying serializer always succeeds: the slot ends up holding the
converted clone of the wrapped value (a transition to full from either
prior slot state, overwriting any occupant), the sentinel 0 is emitted,
and the only result is success, with no error path of the adapter itself. -/
theorem C6_encode_infallible {T J : Type} (cloneT : T → T) (intoJs : T → J)
    (v : PreserveJsValue T) (slot : Option J) :
    serialize cloneT intoJs okSer v slot =
      (some (intoJs (cloneT v.val)), Except.ok 0) :=
  rfl

/-- C7: default delegation. The default construction wraps the default of
T; wrapping then unwrapping is the identity in both directions, with no
failure or side effect; cloning delegates memberwise to the Clone of T;
and equality delegates to the equality of T on the wrapped values. -/
theorem C7_default_delegation {T : Type} (d x : T) (cloneT : T → T)
    (eqT : T → T → Bool) (p a b : PreserveJsValue T) :
    PreserveJsValue.mkDefault d = PreserveJsValue.fromVal d ∧
    (PreserveJsValue.fromVal x).val = x ∧
    PreserveJsValue.fromVal p.val = p ∧
    PreserveJsValue.clone cloneT p = ⟨cloneT p.val⟩ ∧
    PreserveJsValue.eqv eqT a b = eqT a.val b.val :=
  ⟨rfl, rfl, rfl, rfl, rfl⟩

/-- C8: the sentinel is not validated on decode. The visitor result is the
same for any two wire scalars n and m over any slot state, and over a full
slot the decoded wrapper is built from the pending value for every scalar
n, sentinel or not: the consumed scalar is never compared against 0. -/
theorem C8_sentinel_not_validated {T J : Type} (fromJs : J → T) (n m : Int)
    (j : J) (slot : Option J) :
    visit_i64 fromJs n slot = visit_i64 fromJs m slot ∧
    (visit_i64 fromJs n (some j)).map Prod.fst =
      some (PreserveJsValue.mk (fromJs j)) :=
  ⟨rfl, rfl⟩

/-- C9: no rollback on encode failure. The deposit into the relay slot
happens before serialize_i64 is called, so when the underlying serializer
fails on the sentinel, the serialize call returns that very error while
the slot remains full with the freshly deposited value: the deposit is not
undone. -/
theorem C9_no_rollback_on_failure {T J E Ok : Type} (cloneT : T → T)
    (intoJs : T → J) (ser : Int → Except E Ok) (e : E)
    (h : ser 0 = Except.error e) (v : PreserveJsValue T) (slot : Option J) :
    serialize cloneT intoJs ser v slot =
      (some (intoJs (cloneT v.val)), Except.error e) := by
  simp [serialize, h]

/-- witness for C9 at T = J = Nat with a serializer that always fails with
error code 7. -/
theorem C9_no_rollback_on_failure_witness :
    (fun _ : Int => (Except.error 7 : Except Nat Nat)) 0 = Except.error 7 ∧
    serialize (fun t : Nat => t) (fun t : Nat => t)
        (fun _ : Int => (Except.error 7 : Except Nat Nat)) ⟨5⟩ none =
      (some 5, Except.error 7) :=
  ⟨rfl,
    C9_no_rollback_on_failure (fun t : Nat => t) (fun t : Nat => t)
      (fun _ : Int => (Except.error 7 : Except Nat Nat)) 7 rfl ⟨5⟩ none⟩

/-- C10: encode does not consume the wrapper. The serialize method takes
self by shared reference, so after the call the caller still holds the
wrapper unchanged, and the value deposited into the slot is derived from a
clone of the wrapped value, leaving the wrapped value itself untouched and
usable. -/
theorem C10_encode_preserves_wrapper {T J E Ok : Type} (cloneT : T → T)
    (intoJs : T → J) (ser : Int → Except E Ok) (v : PreserveJsValue T)
    (slot : Option J) :
    (encodeCall cloneT intoJs ser v slot).1 = v ∧
    (encodeCall cloneT intoJs ser v slot).2.1 =
      some (intoJs (cloneT v.val)) :=
  ⟨rfl, rfl⟩

end SerdeWasmBindgen
